import Mathlib

/-!
Shallow embedding of `src/mcp_atlassian/servers/confluence.py` (Confluence
FastMCP tool handlers) and proofs about its control flow.

Modelling conventions:
* The external fetcher collaborator is passed in explicitly as a function.
  A fetcher operation that may raise is modelled as returning
  `Except Exc α`, where `Exc` is the text `str(e)` of the raised exception.
* Each tool returns a pair: the tool outcome (`Except PyErr Json`, where
  `.error` means an exception propagates uncaught out of the tool body)
  and the ordered trace of fetcher calls the tool body made.
* `json.dumps(obj, indent=2, ensure_ascii=False)` is external library code;
  serialization is modelled as the identity on the `Json` tree, so tools
  return the `Json` value they would serialize.
* Domain objects (`Page`) are opaque to this module beyond
  `to_simplified_dict()` and `.content`; they are modelled as a structure
  carrying exactly those two observations.  A `Page` object is truthy in
  Python (no `__bool__` override), so `if not page_object:` is `False` for
  any fetched page and `True` only for `None`.
-/

namespace Confluence

/-- JSON values, the shape of every tool response. -/
inductive Json where
  | str (s : String)
  | num (n : Int)
  | jbool (b : Bool)
  | null
  | arr (elems : List Json)
  | obj (fields : List (String × Json))

/-- Exception text: the `str(e)` of a Python exception raised by the fetcher. -/
abbrev Exc := String

/-- An exception escaping a tool body: either an explicit `ValueError` raised
by parameter validation, or a propagated fetcher exception. -/
inductive PyErr where
  | valueError (msg : String)
  | exc (msg : String)
deriving DecidableEq

/-- External domain object `Page`, observed only through
`to_simplified_dict()` and `.content`. -/
structure Page where
  simplified : Json
  content : String

/-- Projection for `to_simplified_dict()` on a page. -/
def Page.to_simplified_dict (p : Page) : Json := p.simplified

/-- Boolean infix test on char lists (`pat` occurs inside `s`), via the
core prefix test at every suffix. -/
def listHasInfix (pat : List Char) : List Char → Bool
  | [] => pat.isPrefixOf []
  | c :: rest => pat.isPrefixOf (c :: rest) || listHasInfix pat rest

/-- Python's substring containment `pat in s`. -/
def strContains (s pat : String) : Bool :=
  listHasInfix pat.toList s.toList

/-- The CQL operator tokens from `search`:
`["=", "~", ">", "<", " AND ", " OR ", "currentUser()"]`. -/
def operatorTokens : List String :=
  ["=", "~", ">", "<", " AND ", " OR ", "currentUser()"]

/-- The query-classification test in `search`:
`any(x in query for x in operatorTokens)`. -/
def isCqlQuery (query : String) : Bool :=
  operatorTokens.any (fun x => strContains query x)

/-- One call to `confluence_fetcher.search(query, limit=limit,
spaces_filter=spaces_filter)`, as observed at the fetcher boundary. -/
structure SearchCall where
  query : String
  limit : Nat
  spaces_filter : Option String
deriving DecidableEq

/-- The body of the `search` tool (confluence.py lines 87-113).  `fetcher`
is `confluence_fetcher.search`; its `Except.error` result models the call
raising.  Returns the tool outcome together with the trace of fetcher
calls in order. -/
def search (fetcher : SearchCall → Except Exc (List Page))
    (query : String) (limit : Nat) (spaces_filter : Option String) :
    Except PyErr Json × List SearchCall :=
  if query ≠ "" ∧ isCqlQuery query = false then
    -- simple search term: try siteSearch, fall back to text search
    let q1 := "siteSearch ~ \"" ++ query ++ "\""
    let call1 : SearchCall := ⟨q1, limit, spaces_filter⟩
    match fetcher call1 with
    | Except.ok pages =>
        (Except.ok (Json.arr (pages.map Page.to_simplified_dict)), [call1])
    | Except.error _ =>
        let q2 := "text ~ \"" ++ query ++ "\""
        let call2 : SearchCall := ⟨q2, limit, spaces_filter⟩
        match fetcher call2 with
        | Except.ok pages =>
            (Except.ok (Json.arr (pages.map Page.to_simplified_dict)),
             [call1, call2])
        | Except.error e2 =>
            -- second failure is not caught: it propagates
            (Except.error (PyErr.exc e2), [call1, call2])
  else
    let call : SearchCall := ⟨query, limit, spaces_filter⟩
    match fetcher call with
    | Except.ok pages =>
        (Except.ok (Json.arr (pages.map Page.to_simplified_dict)), [call])
    | Except.error e => (Except.error (PyErr.exc e), [call])

/-- The `page_id` parameter of `get_page` when supplied: `str | int`. -/
inductive PageIdArg where
  | ofStr (v : String)
  | ofInt (v : Int)
deriving DecidableEq

/-- Python truthiness of a `str | int` value: `""` and `0` are falsy. -/
def PageIdArg.truthy : PageIdArg → Bool
  | .ofStr v => v ≠ ""
  | .ofInt v => v ≠ 0

/-- Python `str(page_id)` (also what an f-string renders for the value). -/
def PageIdArg.toStr : PageIdArg → String
  | .ofStr v => v
  | .ofInt v => toString v

/-- Truthiness of an optional `str | int` parameter (`if page_id:`). -/
def optIdTruthy : Option PageIdArg → Bool
  | some pid => pid.truthy
  | none => false

/-- Truthiness of an optional `str` parameter (`if title:`, `if space_key:`). -/
def optStrTruthy : Option String → Bool
  | some s => s ≠ ""
  | none => false

/-- One fetcher call made by `get_page`: either
`get_page_content(page_id_str, convert_to_markdown=...)` or
`get_page_by_title(space_key, title, convert_to_markdown=...)`. -/
inductive GetPageCall where
  | content (page_id : String) (convert_to_markdown : Bool)
  | byTitle (space_key : String) (title : String) (convert_to_markdown : Bool)
deriving DecidableEq

/-- The two fetcher operations `get_page` may invoke.
`get_page_content` returns a `Page`; `get_page_by_title` returns
`Page | None`; either may raise. -/
structure GetPageFetcher where
  get_page_content : String → Bool → Except Exc Page
  get_page_by_title : String → String → Bool → Except Exc (Option Page)

/-- The response shaping shared by both `get_page` branches
(confluence.py lines 228-231): metadata dict or raw content value. -/
def pageResult (page : Page) (include_metadata : Bool) : Json :=
  if include_metadata then Json.obj [("metadata", page.to_simplified_dict)]
  else Json.obj [("content", Json.obj [("value", Json.str page.content)])]

/-- The `elif title and space_key: ... else: raise ValueError(...)` part of
`get_page` (confluence.py lines 204-219), reached when `page_id` is falsy. -/
def get_page_no_id (f : GetPageFetcher) (title space_key : Option String)
    (include_metadata convert_to_markdown : Bool) :
    Except PyErr Json × List GetPageCall :=
  let valErr : Except PyErr Json × List GetPageCall :=
    (Except.error (PyErr.valueError
      "Either 'page_id' OR both 'title' and 'space_key' must be provided."), [])
  match title, space_key with
  | some t, some sk =>
    if t = "" ∨ sk = "" then valErr
    else
      match f.get_page_by_title sk t convert_to_markdown with
      | Except.error e =>
          -- not wrapped in try/except: the exception propagates
          (Except.error (PyErr.exc e), [GetPageCall.byTitle sk t convert_to_markdown])
      | Except.ok none =>
          (Except.ok (Json.obj [("error", Json.str
              ("Page with title '" ++ t ++ "' not found in space '" ++ sk ++ "'."))]),
           [GetPageCall.byTitle sk t convert_to_markdown])
      | Except.ok (some page) =>
          (Except.ok (pageResult page include_metadata),
           [GetPageCall.byTitle sk t convert_to_markdown])
  | _, _ => valErr

/-- The body of the `get_page` tool (confluence.py lines 184-233). -/
def get_page (f : GetPageFetcher) (page_id : Option PageIdArg)
    (title space_key : Option String)
    (include_metadata convert_to_markdown : Bool) :
    Except PyErr Json × List GetPageCall :=
  match page_id with
  | some pid =>
    if pid.truthy then
      -- `title`/`space_key`, if also supplied, only trigger a warning log
      let page_id_str := pid.toStr
      match f.get_page_content page_id_str convert_to_markdown with
      | Except.ok page =>
          (Except.ok (pageResult page include_metadata),
           [GetPageCall.content page_id_str convert_to_markdown])
      | Except.error e =>
          (Except.ok (Json.obj [("error", Json.str
              ("Failed to retrieve page by ID '" ++ page_id_str ++ "': " ++ e))]),
           [GetPageCall.content page_id_str convert_to_markdown])
    else
      get_page_no_id f title space_key include_metadata convert_to_markdown
  | none =>
      get_page_no_id f title space_key include_metadata convert_to_markdown

/-- One call to `confluence_fetcher.get_page_children(...)`, as observed at
the fetcher boundary. -/
structure ChildrenCall where
  page_id : String
  start : Nat
  limit : Nat
  expand : String
  convert_to_markdown : Bool
  include_folders : Bool
deriving DecidableEq

/-- The body of the `get_page_children` tool (confluence.py lines 305-333). -/
def get_page_children (fetcher : ChildrenCall → Except Exc (List Page))
    (parent_id expand : String) (limit : Nat)
    (include_content convert_to_markdown : Bool)
    (start : Nat) (include_folders : Bool) :
    Except PyErr Json × List ChildrenCall :=
  let expand2 :=
    if include_content = true ∧ strContains expand "body" = false then
      if expand ≠ "" then expand ++ ",body.storage" else "body.storage"
    else expand
  let call : ChildrenCall :=
    ⟨parent_id, start, limit, expand2, convert_to_markdown, include_folders⟩
  match fetcher call with
  | Except.ok pages =>
      (Except.ok (Json.obj [
        ("parent_id", Json.str parent_id),
        ("count", Json.num pages.length),
        ("limit_requested", Json.num limit),
        ("start_requested", Json.num start),
        ("results", Json.arr (pages.map Page.to_simplified_dict))]),
       [call])
  | Except.error e =>
      (Except.ok (Json.obj [("error", Json.str ("Failed to get child pages: " ++ e))]),
       [call])

/-- One call to `confluence_fetcher.create_page(...)`. -/
structure CreateCall where
  space_key : String
  title : String
  body : String
  parent_id : Option String
  is_markdown : Bool
  enable_heading_anchors : Bool
  content_representation : Option String
  emoji : Option String
  page_width : Option String
deriving DecidableEq

/-- The body of the `create_page` tool (confluence.py lines 708-742).
The fetcher call is not wrapped in try/except, so a fetcher exception
propagates. -/
def create_page (fetcher : CreateCall → Except Exc Page)
    (space_key title content : String) (parent_id : Option String)
    (content_format : String) (enable_heading_anchors : Bool)
    (emoji page_width : Option String) :
    Except PyErr Json × List CreateCall :=
  if content_format ∈ (["markdown", "wiki", "storage"] : List String) then
    let is_markdown := content_format = "markdown"
    let content_representation : Option String :=
      if content_format = "markdown" then none else some content_format
    let call : CreateCall :=
      ⟨space_key, title, content, parent_id, is_markdown,
       (if content_format = "markdown" then enable_heading_anchors else false),
       content_representation, emoji, page_width⟩
    match fetcher call with
    | Except.ok page =>
        (Except.ok (Json.obj [
          ("message", Json.str "Page created successfully"),
          ("page", page.to_simplified_dict)]),
         [call])
    | Except.error e => (Except.error (PyErr.exc e), [call])
  else
    (Except.error (PyErr.valueError
      ("Invalid content_format: " ++ content_format ++
       ". Must be 'markdown', 'wiki', or 'storage'")), [])

/-- One call to `confluence_fetcher.update_page(...)`. -/
structure UpdateCall where
  page_id : String
  title : String
  body : String
  is_minor_edit : Bool
  version_comment : Option String
  is_markdown : Bool
  parent_id : Option String
  enable_heading_anchors : Bool
  content_representation : Option String
  emoji : Option String
  page_width : Option String
deriving DecidableEq

/-- The body of the `update_page` tool (confluence.py lines 821-857). -/
def update_page (fetcher : UpdateCall → Except Exc Page)
    (page_id title content : String) (is_minor_edit : Bool)
    (version_comment : Option String) (parent_id : Option String)
    (content_format : String) (enable_heading_anchors : Bool)
    (emoji page_width : Option String) :
    Except PyErr Json × List UpdateCall :=
  if content_format ∈ (["markdown", "wiki", "storage"] : List String) then
    let is_markdown := content_format = "markdown"
    let content_representation : Option String :=
      if content_format = "markdown" then none else some content_format
    let call : UpdateCall :=
      ⟨page_id, title, content, is_minor_edit, version_comment, is_markdown,
       parent_id,
       (if content_format = "markdown" then enable_heading_anchors else false),
       content_representation, emoji, page_width⟩
    match fetcher call with
    | Except.ok page =>
        (Except.ok (Json.obj [
          ("message", Json.str "Page updated successfully"),
          ("page", page.to_simplified_dict)]),
         [call])
    | Except.error e => (Except.error (PyErr.exc e), [call])
  else
    (Except.error (PyErr.valueError
      ("Invalid content_format: " ++ content_format ++
       ". Must be 'markdown', 'wiki', or 'storage'")), [])

/-- The body of the `delete_page` tool (confluence.py lines 881-902).
`fetcher` is `confluence_fetcher.delete_page`; every exception it raises is
caught inside the tool.  The trace records the page id passed to the one
fetcher call. -/
def delete_page (fetcher : String → Except Exc Bool) (page_id : String) :
    Except PyErr Json × List String :=
  let response : Json :=
    match fetcher page_id with
    | Except.ok true =>
        Json.obj [("success", Json.jbool true),
          ("message", Json.str ("Page " ++ page_id ++ " deleted successfully"))]
    | Except.ok false =>
        Json.obj [("success", Json.jbool false),
          ("message", Json.str ("Unable to delete page " ++ page_id ++
            ". API request completed but deletion unsuccessful."))]
    | Except.error e =>
        Json.obj [("success", Json.jbool false),
          ("message", Json.str ("Error deleting page " ++ page_id)),
          ("error", Json.str e)]
  (Except.ok response, [page_id])

/-- Longest digit prefix of a char list. -/
def digitsPrefix : List Char → List Char
  | [] => []
  | c :: rest => if c.isDigit then c :: digitsPrefix rest else []

/-- The suffix following the first occurrence of `pat`, if `pat` occurs. -/
def afterFirst (pat : List Char) : List Char → Option (List Char)
  | [] => if pat = [] then some [] else none
  | c :: rest =>
      if pat.isPrefixOf (c :: rest) = true then some ((c :: rest).drop pat.length)
      else afterFirst pat rest

/-- Digits following the first occurrence of `marker` in `v`, when there is
at least one digit there. -/
def digitsAfter (marker : String) (v : String) : Option String :=
  match afterFirst marker.toList v.toList with
  | some rest =>
      let ds := digitsPrefix rest
      if ds ≠ [] then some (String.mk ds) else none
  | none => none

/-- Modelled from the spec: the helper `parse_page_id_from_url`, which the
unit tests import from `mcp_atlassian.servers.confluence` but whose
definition is not among the source files under `src/`.  Per the spec: a
modern URL `.../spaces/KEY/pages/<digits>/<slug>` yields the digits; a
legacy URL with `?pageId=<digits>` yields those digits; a bare numeric
string or integer yields its string form unchanged; `None` yields `None`;
a non-Confluence URL is returned unchanged (with a warning logged). -/
def parse_page_id_from_url : Option PageIdArg → Option String
  | none => none
  | some (PageIdArg.ofInt n) => some (toString n)
  | some (PageIdArg.ofStr v) =>
      if v.toList ≠ [] ∧ v.toList.all Char.isDigit = true then
        some v
      else
        match digitsAfter "/pages/" v with
        | some pid => some pid
        | none =>
            match digitsAfter "pageId=" v with
            | some pid => some pid
            | none => some v

/-! ## Fixtures for concrete evaluations -/

/-- A concrete page used by the fixture fetchers. -/
def okPage : Page := ⟨Json.null, "page content"⟩

/-- Fixture `get_page` fetcher: every operation succeeds; title lookup
finds nothing. -/
def fixtureGetPageFetcher : GetPageFetcher :=
  ⟨fun _ _ => Except.ok okPage, fun _ _ _ => Except.ok none⟩

/-- Fixture `get_page` fetcher: every operation raises. -/
def failingGetPageFetcher : GetPageFetcher :=
  ⟨fun _ _ => Except.error "boom", fun _ _ _ => Except.error "boom"⟩

/-! ## Theorems -/

/-- C1: for a non-empty query with no operator token, `search` first calls
the fetcher with `siteSearch ~ "<query>"`; if that call raises, the fetcher
is called exactly once more with `text ~ "<query>"`; if the second call also
raises, the exception propagates uncaught. -/
theorem search_free_text_fallback
    (fetcher : SearchCall → Except Exc (List Page))
    (query : String) (limit : Nat) (spaces_filter : Option String)
    (hne : query ≠ "") (hcql : isCqlQuery query = false) :
    (∀ pages, fetcher ⟨"siteSearch ~ \"" ++ query ++ "\"", limit, spaces_filter⟩ =
        Except.ok pages →
      search fetcher query limit spaces_filter =
        (Except.ok (Json.arr (pages.map Page.to_simplified_dict)),
         [⟨"siteSearch ~ \"" ++ query ++ "\"", limit, spaces_filter⟩]))
  ∧ (∀ e, fetcher ⟨"siteSearch ~ \"" ++ query ++ "\"", limit, spaces_filter⟩ =
        Except.error e →
      (search fetcher query limit spaces_filter).2 =
        [⟨"siteSearch ~ \"" ++ query ++ "\"", limit, spaces_filter⟩,
         ⟨"text ~ \"" ++ query ++ "\"", limit, spaces_filter⟩]
    ∧ (∀ e2, fetcher ⟨"text ~ \"" ++ query ++ "\"", limit, spaces_filter⟩ =
          Except.error e2 →
        (search fetcher query limit spaces_filter).1 =
          Except.error (PyErr.exc e2))) := by
  have hcond : query ≠ "" ∧ isCqlQuery query = false := ⟨hne, hcql⟩
  refine ⟨?_, ?_⟩
  · intro pages hp
    simp only [search, if_pos hcond, hp]
  · intro e he
    refine ⟨?_, ?_⟩
    · simp only [search, if_pos hcond, he]
      rcases h2 : fetcher ⟨"text ~ \"" ++ query ++ "\"", limit, spaces_filter⟩ with
        e2 | ps <;> simp
    · intro e2 he2
      simp only [search, if_pos hcond, he, he2]

/-- Witness for C1: the fallback observed on query `"hello"` with a fetcher
that always raises `"boom"`. -/
theorem search_free_text_fallback_witness :
    (search (fun _ => Except.error "boom") "hello" 10 none).2 =
      [⟨"siteSearch ~ \"hello\"", 10, none⟩, ⟨"text ~ \"hello\"", 10, none⟩]
  ∧ (search (fun _ => Except.error "boom") "hello" 10 none).1 =
      Except.error (PyErr.exc "boom") := by
  have h := search_free_text_fallback (fun _ => Except.error "boom") "hello" 10 none
    (by decide) (by decide)
  exact ⟨(h.2 "boom" rfl).1, (h.2 "boom" rfl).2 "boom" rfl⟩

/-- C2: a query containing an operator token is passed to the fetcher
unmodified, exactly one fetcher call is made, and a raised exception
propagates with no fallback attempt. -/
theorem search_cql_passthrough
    (fetcher : SearchCall → Except Exc (List Page))
    (query : String) (limit : Nat) (spaces_filter : Option String)
    (hcql : isCqlQuery query = true) :
    (search fetcher query limit spaces_filter).2 = [⟨query, limit, spaces_filter⟩]
  ∧ (∀ pages, fetcher ⟨query, limit, spaces_filter⟩ = Except.ok pages →
      (search fetcher query limit spaces_filter).1 =
        Except.ok (Json.arr (pages.map Page.to_simplified_dict)))
  ∧ (∀ e, fetcher ⟨query, limit, spaces_filter⟩ = Except.error e →
      (search fetcher query limit spaces_filter).1 = Except.error (PyErr.exc e)) := by
  have hcond : ¬ (query ≠ "" ∧ isCqlQuery query = false) := by
    rintro ⟨-, h⟩
    rw [hcql] at h
    exact absurd h (by decide)
  refine ⟨?_, ?_, ?_⟩
  · simp only [search, if_neg hcond]
    rcases h : fetcher ⟨query, limit, spaces_filter⟩ with e | ps <;> simp
  · intro pages hp
    simp only [search, if_neg hcond, hp]
  · intro e he
    simp only [search, if_neg hcond, he]

/-- Witness for C2: query `"a=b"` goes through unchanged and its failure
propagates. -/
theorem search_cql_passthrough_witness :
    (search (fun _ => Except.error "boom") "a=b" 5 none).2 = [⟨"a=b", 5, none⟩]
  ∧ (search (fun _ => Except.error "boom") "a=b" 5 none).1 =
      Except.error (PyErr.exc "boom") := by
  have h := search_cql_passthrough (fun _ => Except.error "boom") "a=b" 5 none (by decide)
  exact ⟨h.1, h.2.2 "boom" rfl⟩

/-- C3: when `page_id` is truthy, `get_page` resolves by ID through
`get_page_content`; `title` and `space_key` are ignored (the result is
identical to the call without them) and never cause an error (the tool
outcome is a returned value, not a raised exception). -/
theorem get_page_id_precedence
    (f : GetPageFetcher) (pid : PageIdArg) (title space_key : Option String)
    (include_metadata convert_to_markdown : Bool)
    (htr : pid.truthy = true) :
    get_page f (some pid) title space_key include_metadata convert_to_markdown =
      get_page f (some pid) none none include_metadata convert_to_markdown
  ∧ (get_page f (some pid) title space_key include_metadata convert_to_markdown).2 =
      [GetPageCall.content pid.toStr convert_to_markdown]
  ∧ ∃ j, (get_page f (some pid) title space_key include_metadata
        convert_to_markdown).1 = Except.ok j := by
  refine ⟨?_, ?_, ?_⟩
  · simp only [get_page, htr, if_pos]
  · simp only [get_page, htr, if_pos]
    rcases h : f.get_page_content pid.toStr convert_to_markdown with e | p <;> simp
  · simp only [get_page, htr, if_pos]
    rcases h : f.get_page_content pid.toStr convert_to_markdown with e | p <;> simp

/-- Witness for C3: `page_id="123"` with `title`/`space_key` also supplied
behaves exactly like the call with only `page_id`. -/
theorem get_page_id_precedence_witness :
    get_page fixtureGetPageFetcher (some (PageIdArg.ofStr "123"))
        (some "T") (some "DEV") true true =
      get_page fixtureGetPageFetcher (some (PageIdArg.ofStr "123")) none none true true
  ∧ (get_page fixtureGetPageFetcher (some (PageIdArg.ofStr "123"))
        (some "T") (some "DEV") true true).2 = [GetPageCall.content "123" true] := by
  have h := get_page_id_precedence fixtureGetPageFetcher (PageIdArg.ofStr "123")
    (some "T") (some "DEV") true true (by decide)
  exact ⟨h.1, h.2.1⟩

/-- Counterexample to C4 as stated: with `page_id` absent, `title` present
but empty (`some ""`), `space_key` present (`some "DEV"`), and a fetcher
whose `get_page_by_title` returns no page, the tool raises `ValueError`
without any fetcher call instead of returning the not-found JSON object. -/
theorem get_page_title_present_cex :
    get_page fixtureGetPageFetcher none (some "") (some "DEV") true true =
      (Except.error (PyErr.valueError
        "Either 'page_id' OR both 'title' and 'space_key' must be provided."), [])
  ∧ ¬ (get_page fixtureGetPageFetcher none (some "") (some "DEV") true true).1 =
      Except.ok (Json.obj [("error", Json.str
        "Page with title '' not found in space 'DEV'.")]) := by
  refine ⟨rfl, ?_⟩
  intro h
  simp [get_page, get_page_no_id, fixtureGetPageFetcher] at h

/-- C4 (amended): with `page_id` absent and `title` and `space_key` present
and non-empty, when `get_page_by_title` returns no page the tool returns
(does not raise) the JSON object
`{"error": "Page with title '<title>' not found in space '<space_key>'."}`. -/
theorem get_page_title_not_found
    (f : GetPageFetcher) (t sk : String)
    (include_metadata convert_to_markdown : Bool)
    (ht : t ≠ "") (hsk : sk ≠ "")
    (hfetch : f.get_page_by_title sk t convert_to_markdown = Except.ok none) :
    get_page f none (some t) (some sk) include_metadata convert_to_markdown =
      (Except.ok (Json.obj [("error", Json.str
        ("Page with title '" ++ t ++ "' not found in space '" ++ sk ++ "'."))]),
       [GetPageCall.byTitle sk t convert_to_markdown]) := by
  have hcond : ¬ (t = "" ∨ sk = "") := by
    rintro (h | h)
    · exact ht h
    · exact hsk h
  simp only [get_page, get_page_no_id, if_neg hcond, hfetch]

/-- Witness for C4 (amended): `title="X"`, `space_key="DEV"`, no match. -/
theorem get_page_title_not_found_witness :
    get_page fixtureGetPageFetcher none (some "X") (some "DEV") true true =
      (Except.ok (Json.obj [("error", Json.str
        "Page with title 'X' not found in space 'DEV'.")]),
       [GetPageCall.byTitle "DEV" "X" true]) :=
  get_page_title_not_found fixtureGetPageFetcher "X" "DEV" true true
    (by decide) (by decide) rfl

/-- C5: with `page_id` absent and at least one of `title`, `space_key`
absent, `get_page` raises a `ValueError` before any fetcher page operation
is invoked (the call trace is empty). -/
theorem get_page_missing_identifiers
    (f : GetPageFetcher) (title space_key : Option String)
    (include_metadata convert_to_markdown : Bool)
    (h : title = none ∨ space_key = none) :
    get_page f none title space_key include_metadata convert_to_markdown =
      (Except.error (PyErr.valueError
        "Either 'page_id' OR both 'title' and 'space_key' must be provided."), []) := by
  rcases h with h | h
  · subst h
    cases space_key <;> rfl
  · subst h
    cases title <;> rfl

/-- Witness for C5: `get_page` with no identifiers at all. -/
theorem get_page_missing_identifiers_witness :
    get_page fixtureGetPageFetcher none none none true true =
      (Except.error (PyErr.valueError
        "Either 'page_id' OR both 'title' and 'space_key' must be provided."), []) :=
  get_page_missing_identifiers fixtureGetPageFetcher none none true true (Or.inl rfl)

/-- C10: with a truthy `page_id` the fetch step never raises — the result is
always a returned value, and a `get_page_content` exception is converted to
the JSON object `{"error": "Failed to retrieve page by ID '<id>': <e>"}` —
whereas in the title+space_key branch a `get_page_by_title` exception
propagates uncaught. -/
theorem get_page_fetch_error_asymmetry
    (f : GetPageFetcher) (pid : PageIdArg) (title space_key : Option String)
    (t sk : String) (include_metadata convert_to_markdown : Bool) (e : Exc)
    (htr : pid.truthy = true) :
    (∃ j, (get_page f (some pid) title space_key include_metadata
        convert_to_markdown).1 = Except.ok j)
  ∧ (f.get_page_content pid.toStr convert_to_markdown = Except.error e →
      (get_page f (some pid) title space_key include_metadata
          convert_to_markdown).1 =
        Except.ok (Json.obj [("error", Json.str
          ("Failed to retrieve page by ID '" ++ pid.toStr ++ "': " ++ e))]))
  ∧ (t ≠ "" → sk ≠ "" →
      f.get_page_by_title sk t convert_to_markdown = Except.error e →
      (get_page f none (some t) (some sk) include_metadata
          convert_to_markdown).1 = Except.error (PyErr.exc e)) := by
  refine ⟨?_, ?_, ?_⟩
  · simp only [get_page, htr, if_pos]
    rcases h : f.get_page_content pid.toStr convert_to_markdown with e2 | p <;> simp
  · intro hf
    simp only [get_page, htr, if_pos, hf]
  · intro ht hsk hf
    have hcond : ¬ (t = "" ∨ sk = "") := by
      rintro (h | h)
      · exact ht h
      · exact hsk h
    simp only [get_page, get_page_no_id, if_neg hcond, hf]

/-- Witness for C10: a fetcher whose operations all raise `"boom"` — the ID
branch returns an error object, the title branch propagates. -/
theorem get_page_fetch_error_asymmetry_witness :
    (get_page failingGetPageFetcher (some (PageIdArg.ofStr "123"))
        none none true true).1 =
      Except.ok (Json.obj [("error", Json.str
        "Failed to retrieve page by ID '123': boom")])
  ∧ (get_page failingGetPageFetcher none (some "X") (some "DEV") true true).1 =
      Except.error (PyErr.exc "boom") := by
  have h := get_page_fetch_error_asymmetry failingGetPageFetcher
    (PageIdArg.ofStr "123") none none "X" "DEV" true true "boom" (by decide)
  exact ⟨h.2.1 rfl, h.2.2 (by decide) (by decide) rfl⟩

/-- C6: with a `content_format` outside `{"markdown", "wiki", "storage"}`,
both `create_page` and `update_page` raise a descriptive `ValueError` and
make no fetcher call (empty trace: no page is created or updated). -/
theorem content_format_validation
    (cf : CreateCall → Except Exc Page) (uf : UpdateCall → Except Exc Page)
    (space_key title content page_id utitle ucontent : String)
    (parent_id : Option String) (content_format : String)
    (enable_heading_anchors : Bool) (emoji page_width : Option String)
    (is_minor_edit : Bool) (version_comment uparent : Option String)
    (h : content_format ∉ (["markdown", "wiki", "storage"] : List String)) :
    create_page cf space_key title content parent_id content_format
        enable_heading_anchors emoji page_width =
      (Except.error (PyErr.valueError
        ("Invalid content_format: " ++ content_format ++
         ". Must be 'markdown', 'wiki', or 'storage'")), [])
  ∧ update_page uf page_id utitle ucontent is_minor_edit version_comment
        uparent content_format enable_heading_anchors emoji page_width =
      (Except.error (PyErr.valueError
        ("Invalid content_format: " ++ content_format ++
         ". Must be 'markdown', 'wiki', or 'storage'")), []) := by
  constructor
  · simp only [create_page, if_neg h]
  · simp only [update_page, if_neg h]

/-- Witness for C6: `content_format="bogus"` is rejected by both tools with
no fetcher call. -/
theorem content_format_validation_witness :
    create_page (fun _ => Except.ok okPage) "DEV" "T" "body" none "bogus"
        false none none =
      (Except.error (PyErr.valueError
        "Invalid content_format: bogus. Must be 'markdown', 'wiki', or 'storage'"),
       [])
  ∧ update_page (fun _ => Except.ok okPage) "123" "T" "body" false none none
        "bogus" false none none =
      (Except.error (PyErr.valueError
        "Invalid content_format: bogus. Must be 'markdown', 'wiki', or 'storage'"),
       []) :=
  content_format_validation (fun _ => Except.ok okPage) (fun _ => Except.ok okPage)
    "DEV" "T" "body" "123" "T" "body" none "bogus" false none none false none none
    (by decide)

/-- C7: `delete_page` never raises; the fetcher returning `false` yields the
"unable to delete" object, `true` yields a success object, and a fetcher
exception is converted into a `{"success": false, ..., "error": <text>}`
object instead of propagating. -/
theorem delete_page_never_raises
    (fetcher : String → Except Exc Bool) (page_id : String) :
    (∃ j, (delete_page fetcher page_id).1 = Except.ok j)
  ∧ (fetcher page_id = Except.ok false →
      delete_page fetcher page_id =
        (Except.ok (Json.obj [("success", Json.jbool false),
          ("message", Json.str ("Unable to delete page " ++ page_id ++
            ". API request completed but deletion unsuccessful."))]),
         [page_id]))
  ∧ (fetcher page_id = Except.ok true →
      delete_page fetcher page_id =
        (Except.ok (Json.obj [("success", Json.jbool true),
          ("message", Json.str ("Page " ++ page_id ++ " deleted successfully"))]),
         [page_id]))
  ∧ (∀ e, fetcher page_id = Except.error e →
      delete_page fetcher page_id =
        (Except.ok (Json.obj [("success", Json.jbool false),
          ("message", Json.str ("Error deleting page " ++ page_id)),
          ("error", Json.str e)]),
         [page_id])) := by
  refine ⟨⟨_, rfl⟩, ?_, ?_, ?_⟩
  · intro h
    simp only [delete_page, h]
  · intro h
    simp only [delete_page, h]
  · intro e h
    simp only [delete_page, h]

/-- Witness for C7: fetcher returning `false` for page `"42"`. -/
theorem delete_page_never_raises_witness :
    delete_page (fun _ => Except.ok false) "42" =
      (Except.ok (Json.obj [("success", Json.jbool false),
        ("message", Json.str
          "Unable to delete page 42. API request completed but deletion unsuccessful.")]),
       ["42"]) :=
  (delete_page_never_raises (fun _ => Except.ok false) "42").2.1 rfl

/-- C8: `get_page_children` makes exactly one fetcher call; the expand value
passed is `expand + ",body.storage"` (or `"body.storage"` when `expand` is
empty) when `include_content` is true and `"body"` does not occur in
`expand`, and `expand` unchanged otherwise; in particular `"version"`
becomes `"version,body.storage"` and `""` becomes `"body.storage"`. -/
theorem get_page_children_expand
    (fetcher : ChildrenCall → Except Exc (List Page))
    (parent_id expand : String) (limit : Nat)
    (include_content convert_to_markdown : Bool)
    (start : Nat) (include_folders : Bool) :
    (get_page_children fetcher parent_id expand limit include_content
        convert_to_markdown start include_folders).2 =
      [⟨parent_id, start, limit,
        (if include_content = true ∧ strContains expand "body" = false then
           (if expand ≠ "" then expand ++ ",body.storage" else "body.storage")
         else expand),
        convert_to_markdown, include_folders⟩]
  ∧ (get_page_children fetcher parent_id "version" limit true
        convert_to_markdown start include_folders).2 =
      [⟨parent_id, start, limit, "version,body.storage",
        convert_to_markdown, include_folders⟩]
  ∧ (get_page_children fetcher parent_id "" limit true
        convert_to_markdown start include_folders).2 =
      [⟨parent_id, start, limit, "body.storage",
        convert_to_markdown, include_folders⟩] := by
  have gen : ∀ (e : String) (ic : Bool),
      (get_page_children fetcher parent_id e limit ic convert_to_markdown
          start include_folders).2 =
        [⟨parent_id, start, limit,
          (if ic = true ∧ strContains e "body" = false then
             (if e ≠ "" then e ++ ",body.storage" else "body.storage")
           else e), convert_to_markdown, include_folders⟩] := by
    intro e ic
    simp only [get_page_children]
    rcases h : fetcher ⟨parent_id, start, limit,
      (if ic = true ∧ strContains e "body" = false then
         (if e ≠ "" then e ++ ",body.storage" else "body.storage")
       else e), convert_to_markdown, include_folders⟩ with e2 | ps <;> simp [h]
  refine ⟨gen expand include_content, ?_, ?_⟩
  · rw [gen "version" true,
      (by decide :
        (if (true = true ∧ strContains "version" "body" = false) then
           (if ("version" : String) ≠ "" then "version" ++ ",body.storage"
            else "body.storage")
         else "version") = "version,body.storage")]
  · rw [gen "" true,
      (by decide :
        (if (true = true ∧ strContains "" "body" = false) then
           (if ("" : String) ≠ "" then "" ++ ",body.storage" else "body.storage")
         else "") = "body.storage")]

/-- C9 (spec-modelled helper): `parse_page_id_from_url` maps a modern
Confluence URL to its page-id digits, a legacy `?pageId=` URL to those
digits, a bare numeric string or an integer to its string form, `None` to
`None`, and returns a non-Confluence URL unchanged. -/
theorem parse_page_id_from_url_spec :
    parse_page_id_from_url (some (PageIdArg.ofStr
        "https://eruditis.atlassian.net/wiki/spaces/TEAM/pages/123456789/Page+Title")) =
      some "123456789"
  ∧ parse_page_id_from_url (some (PageIdArg.ofStr
        "https://site.atlassian.net/wiki/pages/viewpage.action?pageId=987654")) =
      some "987654"
  ∧ (∀ s : String, s ≠ "" → s.toList.all Char.isDigit = true →
      parse_page_id_from_url (some (PageIdArg.ofStr s)) = some s)
  ∧ (∀ n : Int, parse_page_id_from_url (some (PageIdArg.ofInt n)) =
      some (toString n))
  ∧ parse_page_id_from_url none = none
  ∧ parse_page_id_from_url (some (PageIdArg.ofStr
        "https://example.com/not-a-confluence-url")) =
      some "https://example.com/not-a-confluence-url" := by
  refine ⟨by decide, by decide, ?_, fun n => rfl, rfl, by decide⟩
  intro s hs hdig
  have h1 : s.toList ≠ [] := fun hnil => hs (String.ext hnil)
  simp only [parse_page_id_from_url, if_pos (And.intro h1 hdig)]

/-- Witness for C9: the bare numeric string case at `"123456"`. -/
theorem parse_page_id_from_url_spec_witness :
    parse_page_id_from_url (some (PageIdArg.ofStr "123456")) = some "123456" :=
  parse_page_id_from_url_spec.2.2.1 "123456" (by decide) (by decide)

end Confluence
